import Mathlib

/-!
Shallow embedding of the Channel Event Logging (CEL) engine of main/cel.c.

Pure data is translated as Lean structures; the astobj2 containers that hold
engine state (the linkedid tracker and the dial-status store) become explicit
association lists threaded through the handler functions; refcount bookkeeping
on linkedid entries is the documented ao2 protocol (alloc and link each hold a
reference, ao2_find takes one, ao2_ref returns the count before the update).
Channel snapshot strings are never NULL in the engine, so C strings become
Lean String and NULL-able pointers become Option.
-/

set_option autoImplicit false

/-- Seconds/microseconds pair standing for struct timeval (ast_tvnow). -/
structure Timeval where
  sec : Nat
  usec : Nat
deriving DecidableEq

/-- Minimal JSON values, standing for struct ast_json blobs built by ast_json_pack. -/
inductive Json where
  | str : String → Json
  | int : Int → Json
  | obj : List (String × Json) → Json

/-- Immutable channel snapshot value (struct ast_channel_snapshot), restricted to
the fields cel.c reads. The DEAD softhangup flag and the INTERNAL tech property
are carried as booleans. -/
structure ChannelSnapshot where
  uniqueid : String
  linkedid : String
  name : String
  appl : String
  data : String
  context : String
  exten : String
  amaflags : Nat
  accountcode : String
  peeraccount : String
  userfield : String
  caller_name : String
  caller_number : String
  caller_ani : String
  caller_rdnis : String
  caller_dnid : String
  hangupcause : Int
  hangupsource : String
  state : Nat
  dead : Bool
  tech_internal : Bool
deriving DecidableEq

/-- Event type code CHAN_START (enum ast_cel_event_type, external contract). -/
abbrev AST_CEL_CHANNEL_START : Nat := 1

/-- Event type code CHAN_END. -/
abbrev AST_CEL_CHANNEL_END : Nat := 2

/-- Event type code ANSWER. -/
abbrev AST_CEL_ANSWER : Nat := 3

/-- Event type code HANGUP. -/
abbrev AST_CEL_HANGUP : Nat := 4

/-- Event type code APP_START. -/
abbrev AST_CEL_APP_START : Nat := 5

/-- Event type code APP_END. -/
abbrev AST_CEL_APP_END : Nat := 6

/-- Event type code PARK_START. -/
abbrev AST_CEL_PARK_START : Nat := 7

/-- Event type code PARK_END. -/
abbrev AST_CEL_PARK_END : Nat := 8

/-- Event type code USER_DEFINED. -/
abbrev AST_CEL_USER_DEFINED : Nat := 9

/-- Event type code BRIDGE_ENTER. -/
abbrev AST_CEL_BRIDGE_ENTER : Nat := 10

/-- Event type code BRIDGE_EXIT. -/
abbrev AST_CEL_BRIDGE_EXIT : Nat := 11

/-- Event type code BLINDTRANSFER. -/
abbrev AST_CEL_BLINDTRANSFER : Nat := 12

/-- Event type code ATTENDEDTRANSFER. -/
abbrev AST_CEL_ATTENDEDTRANSFER : Nat := 13

/-- Event type code PICKUP. -/
abbrev AST_CEL_PICKUP : Nat := 14

/-- Event type code FORWARD. -/
abbrev AST_CEL_FORWARD : Nat := 15

/-- Event type code LINKEDID_END. -/
abbrev AST_CEL_LINKEDID_END : Nat := 16

/-- Event type code LOCAL_OPTIMIZE. -/
abbrev AST_CEL_LOCAL_OPTIMIZE : Nat := 17

/-- Channel state AST_STATE_UP (enum ast_channel_state). -/
abbrev AST_STATE_UP : Nat := 6

/-- Maximum possible CEL event ids, imposed by the eventset definition. -/
abbrev CEL_MAX_EVENT_IDS : Nat := 64

/-- The events mask produced by the ALL sentinel: (int64_t) -1, all 64 bits set. -/
abbrev CEL_ALL_EVENTS : Nat := 2 ^ 64 - 1

/-- struct ast_cel_general_config: enable flag, 64-bit event mask, tracked apps
(stored lowercased by apps_handler) and the date format string. -/
structure CelGeneralConfig where
  enable : Bool
  events : Nat
  apps : List String
  date_format : String
deriving DecidableEq

/-- Map of ast_cel_event_type to strings (the cel_event_types array; slots that
are not listed are NULL in the C array). -/
def cel_event_types : Nat → Option String
  | 0 => some "ALL"
  | 1 => some "CHAN_START"
  | 2 => some "CHAN_END"
  | 3 => some "ANSWER"
  | 4 => some "HANGUP"
  | 5 => some "APP_START"
  | 6 => some "APP_END"
  | 7 => some "PARK_START"
  | 8 => some "PARK_END"
  | 9 => some "USER_DEFINED"
  | 10 => some "BRIDGE_ENTER"
  | 11 => some "BRIDGE_EXIT"
  | 12 => some "BLINDTRANSFER"
  | 13 => some "ATTENDEDTRANSFER"
  | 14 => some "PICKUP"
  | 15 => some "FORWARD"
  | 16 => some "LINKEDID_END"
  | 17 => some "LOCAL_OPTIMIZE"
  | _ => none

/-- ast_cel_get_type_name: S_OR(cel_event_types[type], "Unknown"). -/
def ast_cel_get_type_name (t : Nat) : String :=
  match cel_event_types t with
  | some s => s
  | none => "Unknown"

/-- ast_str_to_lower: lowercase every character of the string (tolower applied
per character). -/
def strToLower (s : String) : String :=
  ⟨s.data.map Char.toLower⟩

/-- strcasecmp equality: ASCII case-insensitive string comparison. -/
def strCaseEq (a b : String) : Bool :=
  strToLower a == strToLower b

/-- Whitespace test used by ast_strip (isspace on the characters ast_strip
handles). -/
def isWs (c : Char) : Bool :=
  c == ' ' || c == '\t' || c == '\n' || c == '\r'

/-- Drop leading whitespace characters. -/
def dropLeadingWs : List Char → List Char
  | [] => []
  | c :: t => if isWs c then dropLeadingWs t else c :: t

/-- ast_strip: trim whitespace from both ends of the string. -/
def ast_strip (s : String) : String :=
  ⟨(dropLeadingWs (dropLeadingWs s.data).reverse).reverse⟩

/-- strsep on commas: split the option value into comma-separated items. -/
def splitCommasAux : List Char → List Char → List String
  | [], acc => [⟨acc.reverse⟩]
  | c :: rest, acc =>
    if c == ',' then ⟨acc.reverse⟩ :: splitCommasAux rest []
    else splitCommasAux rest (c :: acc)

/-- Split a config value on commas (the strsep loop). -/
def splitCommas (s : String) : List String :=
  splitCommasAux s.data []

/-- ast_cel_str_to_event_type: scan the cel_event_types array (indices 0..63),
skip NULL slots, and return the first index whose name matches with
strcasecmp; -1 when no name matches. -/
def ast_cel_str_to_event_type (name : String) : Int :=
  match (List.range CEL_MAX_EVENT_IDS).find? (fun i =>
      match cel_event_types i with
      | some s => strCaseEq name s
      | none => false) with
  | some i => (i : Int)
  | none => -1

/-- events_handler: split the option value on commas, ast_strip each item, skip
empty items, map names through ast_cel_str_to_event_type; the ALL sentinel
(index 0) sets the mask to all-ones, an unknown name (-1) fails the handler,
otherwise the event's bit is OR-ed into the mask. -/
def events_handler (value : String) (events0 : Nat) : Option Nat :=
  (splitCommas value).foldlM (fun acc cur =>
    let cur := ast_strip cur
    if cur = "" then
      some acc
    else
      let event_type := ast_cel_str_to_event_type cur
      if event_type = 0 then
        some CEL_ALL_EVENTS
      else if event_type = -1 then
        none
      else
        some (acc ||| (1 <<< event_type.toNat))) events0

/-- ast_cel_track_event: test the event's bit in the configured mask. -/
def ast_cel_track_event (cfg : CelGeneralConfig) (et : Nat) : Bool :=
  cfg.events.testBit et

/-- cel_track_app: look the lowercased application name up in the apps
container (whose members apps_handler stored lowercased). -/
def cel_track_app (cfg : CelGeneralConfig) (app : String) : Bool :=
  cfg.apps.contains (strToLower app)

/-- cel_pre_apply_config: reject when the pending config has no general section;
accept when no apps are tracked, or when APP_START or APP_END is in the events
mask; otherwise reject. -/
def cel_pre_apply_config (general : Option CelGeneralConfig) : Int :=
  match general with
  | none => -1
  | some cfg =>
    if cfg.apps.length = 0 then 0
    else if cfg.events.testBit AST_CEL_APP_START then 0
    else if cfg.events.testBit AST_CEL_APP_END then 0
    else -1

/-- CEL payload of struct ast_event: the information elements that
ast_cel_create_event sets, as one field bag. The extra blob is carried as the
JSON value handed to the builder (its string serialization is external). -/
structure AstEvent where
  event_type : Nat
  event_time : Timeval
  userevent_name : String
  cidname : String
  cidnum : String
  cidani : String
  cidrdnis : String
  ciddnid : String
  exten : String
  context : String
  channame : String
  appname : String
  appdata : String
  amaflags : Nat
  acctcode : String
  peeracct : String
  uniqueid : String
  linkedid : String
  userfield : String
  extra : Option Json
  peer : String

/-- ast_cel_create_event: build the AST_EVENT_CEL field bag from a snapshot.
The event time is ast_tvnow, passed here explicitly; the user-defined event
name defaults to the empty string (S_OR); peer is set to the empty string. -/
def ast_cel_create_event (snapshot : ChannelSnapshot) (event_type : Nat)
    (userdefevname : Option String) (extra : Option Json) (now : Timeval) : AstEvent :=
  { event_type := event_type
    event_time := now
    userevent_name := userdefevname.getD ""
    cidname := snapshot.caller_name
    cidnum := snapshot.caller_number
    cidani := snapshot.caller_ani
    cidrdnis := snapshot.caller_rdnis
    ciddnid := snapshot.caller_dnid
    exten := snapshot.exten
    context := snapshot.context
    channame := snapshot.name
    appname := snapshot.appl
    appdata := snapshot.data
    amaflags := snapshot.amaflags
    acctcode := snapshot.accountcode
    peeracct := snapshot.peeraccount
    uniqueid := snapshot.uniqueid
    linkedid := snapshot.linkedid
    userfield := snapshot.userfield
    extra := extra
    peer := "" }

/-- ABI version constant of struct ast_cel_event_record. -/
abbrev AST_CEL_EVENT_RECORD_VERSION : Nat := 2

/-- struct ast_cel_event_record as filled by ast_cel_fill_record. -/
structure CelEventRecord where
  version : Nat
  event_type : Nat
  event_time : Timeval
  event_name : String
  user_defined_name : String
  caller_id_name : String
  caller_id_num : String
  caller_id_ani : String
  caller_id_rdnis : String
  caller_id_dnid : String
  extension : String
  context : String
  channel_name : String
  application_name : String
  application_data : String
  account_code : String
  peer_account : String
  unique_id : String
  linked_id : String
  amaflag : Nat
  user_field : String
  peer : String
  extra : Option Json

/-- ast_cel_fill_record: check the caller's record version, then read every
information element back out of the event. The user-defined name is only
carried through for USER_DEFINED events; note that the peer_account field is
read from the ACCTCODE element (cel.c line 887), not from PEERACCT. -/
def ast_cel_fill_record (e : AstEvent) (version : Nat) : Option CelEventRecord :=
  if version ≠ AST_CEL_EVENT_RECORD_VERSION then none
  else some
    { version := version
      event_type := e.event_type
      event_time := e.event_time
      event_name := ast_cel_get_type_name e.event_type
      user_defined_name := if e.event_type = AST_CEL_USER_DEFINED then e.userevent_name else ""
      caller_id_name := e.cidname
      caller_id_num := e.cidnum
      caller_id_ani := e.cidani
      caller_id_rdnis := e.cidrdnis
      caller_id_dnid := e.ciddnid
      extension := e.exten
      context := e.context
      channel_name := e.channame
      application_name := e.appname
      application_data := e.appdata
      account_code := e.acctcode
      peer_account := e.acctcode
      unique_id := e.uniqueid
      linked_id := e.linkedid
      amaflag := e.amaflags
      user_field := e.userfield
      peer := e.peer
      extra := e.extra }

/-- Backend registry entry (struct cel_backend): a name and its callback,
the callback abstracted as an identifier. -/
structure CelBackend where
  name : String
  callback : Nat
deriving DecidableEq

/-- ast_cel_backend_register: reject empty names; otherwise allocate the entry
and ao2_link it into the cel_backends container. No duplicate-name check is
performed before linking. -/
def ast_cel_backend_register (backends : List CelBackend) (name : String)
    (backend_callback : Nat) : Int × List CelBackend :=
  if name = "" then (-1, backends)
  else (0, backends ++ [{ name := name, callback := backend_callback }])

/-- Remove the first entry whose name matches (the entry ao2_find unlinks);
none when no entry matches. -/
def backendsRemoveFirst : List CelBackend → String → Option (List CelBackend)
  | [], _ => none
  | b :: t, key =>
    if b.name = key then some t
    else (backendsRemoveFirst t key).map (fun l => b :: l)

/-- ast_cel_backend_unregister: ao2_find with OBJ_KEY and OBJ_UNLINK; failure
(-1) when no backend with that name is registered, leaving the registry as it
was. -/
def ast_cel_backend_unregister (backends : List CelBackend) (name : String) :
    Int × List CelBackend :=
  match backendsRemoveFirst backends name with
  | some bs => (0, bs)
  | none => (-1, backends)

/-- Dial multichannel blob (struct ast_multi_channel_blob for ast_channel_dial):
the caller snapshot and the dialstatus and forward blob variables (empty string
standing for an absent variable, as ast_strlen_zero treats them alike). -/
structure DialBlob where
  caller : Option ChannelSnapshot
  dialstatus : String
  forward : String
deriving DecidableEq

/-- get_caller_uniqueid: uniqueid of the blob's caller snapshot, when present. -/
def get_caller_uniqueid (blob : DialBlob) : Option String :=
  blob.caller.map (fun s => s.uniqueid)

/-- Lookup in the dial-status store by caller uniqueid. -/
def dialstatusFind : List (String × DialBlob) → String → Option DialBlob
  | [], _ => none
  | (k, b) :: t, key => if k = key then some b else dialstatusFind t key

/-- Remove every entry stored under the given caller uniqueid. -/
def dialstatusErase : List (String × DialBlob) → String → List (String × DialBlob)
  | [], _ => []
  | p :: t, key =>
    if p.1 = key then dialstatusErase t key else p :: dialstatusErase t key

/-- Modelled from the spec: the cel_dialstatus_store astobj2 container (its
hashing and linking semantics are in main/astobj2.c, which is not part of the
sources here). Section 4.10 of the spec describes it as a mapping from caller
uniqueid to the last-seen dial envelope with insert-replace on new arrival, so
save_dialstatus stores the blob under its caller uniqueid, replacing any
earlier envelope for the same caller. -/
def save_dialstatus (store : List (String × DialBlob)) (blob : DialBlob) :
    List (String × DialBlob) :=
  match get_caller_uniqueid blob with
  | some uid => (uid, blob) :: dialstatusErase store uid
  | none => store

/-- get_dialstatus_blob: ao2_find with OBJ_KEY and OBJ_UNLINK on the dial-status
store: return the entry stored under the uniqueid, removing it from the store. -/
def get_dialstatus_blob (store : List (String × DialBlob)) (uniqueid : String) :
    Option DialBlob × List (String × DialBlob) :=
  match dialstatusFind store uniqueid with
  | some b => (some b, dialstatusErase store uniqueid)
  | none => (none, store)

/-- Lookup in the linkedid tracker: the entry's ao2 refcount (at rest, with no
transient find references), keyed by the linkedid string. -/
def lidFind : List (String × Nat) → String → Option Nat
  | [], _ => none
  | (k, v) :: t, key => if k = key then some v else lidFind t key

/-- Replace the refcount of the first entry with the given key. -/
def lidUpdate : List (String × Nat) → String → Nat → List (String × Nat)
  | [], _, _ => []
  | (k, v) :: t, key, nv =>
    if k = key then (k, nv) :: t else (k, v) :: lidUpdate t key nv

/-- ast_str_container_remove: unlink the entry for the key (the tracker holds at
most one entry per linkedid, since cel_linkedid_ref only links when the find
fails). -/
def lidErase : List (String × Nat) → String → List (String × Nat)
  | [], _ => []
  | p :: t, key =>
    if p.1 = key then lidErase t key else p :: lidErase t key

/-- cel_linkedid_ref: an empty linkedid is a programming error and fails without
touching the tracker. When an entry exists, the find reference is kept, raising
the refcount by one; otherwise a new entry is allocated and linked, leaving both
the alloc and the link references (refcount 2: the container's own reference
plus one channel). -/
def cel_linkedid_ref (lids : List (String × Nat)) (linkedid : String) :
    Option (List (String × Nat)) :=
  if linkedid = "" then none
  else
    match lidFind lids linkedid with
    | some rc => some (lidUpdate lids linkedid (rc + 1))
    | none => some ((linkedid, 2) :: lids)

/-- Mutable engine state shared by the correlators: the linkedid tracker and the
dial-status store. -/
structure CelState where
  linkedids : List (String × Nat)
  dialstatus_store : List (String × DialBlob)
deriving DecidableEq

/-- cel_report_event: the config-gated filter. Drop when CEL is disabled.
When LINKEDID_END is tracked and the candidate is CHANNEL_START, acquire the
snapshot's linkedid first (failure aborts with -1); then drop if the event type
is not in the mask, drop APP_START/APP_END for untracked applications, and
otherwise build the event and fan it out to the backends (returned here as a
singleton event list). -/
def cel_report_event (cfg : CelGeneralConfig) (st : CelState)
    (snapshot : ChannelSnapshot) (event_type : Nat) (userdefevname : Option String)
    (extra : Option Json) (now : Timeval) : Int × CelState × List AstEvent :=
  if !cfg.enable then (0, st, [])
  else
    match (if ast_cel_track_event cfg AST_CEL_LINKEDID_END
              && event_type == AST_CEL_CHANNEL_START then
             cel_linkedid_ref st.linkedids snapshot.linkedid
           else
             some st.linkedids) with
    | none => (-1, st, [])
    | some lids =>
      let st := { st with linkedids := lids }
      if !ast_cel_track_event cfg event_type then (0, st, [])
      else if (event_type == AST_CEL_APP_START || event_type == AST_CEL_APP_END)
              && !cel_track_app cfg snapshot.appl then (0, st, [])
      else (0, st, [ast_cel_create_event snapshot event_type userdefevname extra now])

/-- check_retire_linkedid: no-op for an empty linkedid or when LINKEDID_END is
not tracked, and when the tracker has no entry (the "weird" log). Otherwise
ao2_find raises the refcount to rc + 1 and ao2_ref(lid, -1) returns that value
while dropping the channel's reference: when it equals 3 (one channel, the link
and the find), the entry is unlinked and LINKEDID_END is reported from the old
snapshot; the find reference is dropped on every path. -/
def check_retire_linkedid (cfg : CelGeneralConfig) (st : CelState)
    (snapshot : ChannelSnapshot) (now : Timeval) : CelState × List AstEvent :=
  if snapshot.linkedid = "" then (st, [])
  else if !ast_cel_track_event cfg AST_CEL_LINKEDID_END then (st, [])
  else
    match lidFind st.linkedids snapshot.linkedid with
    | none => (st, [])
    | some rc =>
      if rc + 1 = 3 then
        let st1 : CelState := { st with linkedids := lidErase st.linkedids snapshot.linkedid }
        let r := cel_report_event cfg st1 snapshot AST_CEL_LINKEDID_END none none now
        (r.2.1, r.2.2)
      else
        ({ st with linkedids := lidUpdate st.linkedids snapshot.linkedid (rc - 1) }, [])

/-- cel_filter_channel_snapshot: NULL snapshots pass the filter; a snapshot is
filtered out when its tech properties carry AST_CHAN_TP_INTERNAL. -/
def cel_filter_channel_snapshot : Option ChannelSnapshot → Bool
  | none => false
  | some s => s.tech_internal

/-- cel_channel_state_change: a vanished snapshot reports CHANNEL_END and then
runs the linkedid retirement check; a fresh snapshot reports CHANNEL_START; with
both present, a DEAD transition consumes the dial-status entry stored under the
new snapshot's uniqueid and reports HANGUP with hangupcause, hangupsource and
the consumed dialstatus (empty string when nothing was stored), and otherwise a
transition into AST_STATE_UP reports ANSWER. Both snapshots NULL cannot reach
this handler (a cache update carries at least one snapshot). -/
def cel_channel_state_change (cfg : CelGeneralConfig) (st : CelState)
    (old_snapshot new_snapshot : Option ChannelSnapshot) (now : Timeval) :
    CelState × List AstEvent :=
  match old_snapshot, new_snapshot with
  | some o, none =>
    let r := cel_report_event cfg st o AST_CEL_CHANNEL_END none none now
    let r2 := check_retire_linkedid cfg r.2.1 o now
    (r2.1, r.2.2 ++ r2.2)
  | none, some n =>
    let r := cel_report_event cfg st n AST_CEL_CHANNEL_START none none now
    (r.2.1, r.2.2)
  | none, none => (st, [])
  | some o, some n =>
    if !o.dead && n.dead then
      let found := get_dialstatus_blob st.dialstatus_store n.uniqueid
      let dialstatus :=
        match found.1 with
        | some b => if b.dialstatus = "" then "" else b.dialstatus
        | none => ""
      let extra := Json.obj
        [("hangupcause", Json.int n.hangupcause),
         ("hangupsource", Json.str n.hangupsource),
         ("dialstatus", Json.str dialstatus)]
      let st1 : CelState := { st with dialstatus_store := found.2 }
      let r := cel_report_event cfg st1 n AST_CEL_HANGUP none (some extra) now
      (r.2.1, r.2.2)
    else if o.state != n.state && n.state == AST_STATE_UP then
      let r := cel_report_event cfg st n AST_CEL_ANSWER none none now
      (r.2.1, r.2.2)
    else (st, [])

/-- cel_channel_linkedid_change: with both snapshots present and differing
linkedids, acquire a reference for the new linkedid (the call's failure is
ignored, as in the void C call) and run the retirement check on the old
snapshot. -/
def cel_channel_linkedid_change (cfg : CelGeneralConfig) (st : CelState)
    (old_snapshot new_snapshot : Option ChannelSnapshot) (now : Timeval) :
    CelState × List AstEvent :=
  match old_snapshot, new_snapshot with
  | some o, some n =>
    if o.linkedid ≠ n.linkedid then
      let lids := (cel_linkedid_ref st.linkedids n.linkedid).getD st.linkedids
      check_retire_linkedid cfg { st with linkedids := lids } o now
    else (st, [])
  | _, _ => (st, [])

/-- cel_channel_app_change: nothing when both snapshots carry the same
application; otherwise end the old snapshot's application (APP_END) when it has
one, then start the new snapshot's (APP_START) when it has one. -/
def cel_channel_app_change (cfg : CelGeneralConfig) (st : CelState)
    (old_snapshot new_snapshot : Option ChannelSnapshot) (now : Timeval) :
    CelState × List AstEvent :=
  match old_snapshot, new_snapshot with
  | some o, some n =>
    if o.appl = n.appl then (st, [])
    else
      let r1 :=
        if o.appl ≠ "" then
          let r := cel_report_event cfg st o AST_CEL_APP_END none none now
          (r.2.1, r.2.2)
        else (st, [])
      let r2 :=
        if n.appl ≠ "" then
          let r := cel_report_event cfg r1.1 n AST_CEL_APP_START none none now
          (r.2.1, r.2.2)
        else (r1.1, [])
      (r2.1, r1.2 ++ r2.2)
  | some o, none =>
    if o.appl ≠ "" then
      let r := cel_report_event cfg st o AST_CEL_APP_END none none now
      (r.2.1, r.2.2)
    else (st, [])
  | none, some n =>
    if n.appl ≠ "" then
      let r := cel_report_event cfg st n AST_CEL_APP_START none none now
      (r.2.1, r.2.2)
    else (st, [])
  | none, none => (st, [])

/-- cel_snapshot_update_cb, restricted to channel snapshot updates: drop the
update when either side carries the INTERNAL tech flag, otherwise apply the
cel_channel_monitors in their array order: application change, state change,
linkedid change (the order is load-bearing: cel.c lines 1002-1011). -/
def cel_snapshot_update_cb (cfg : CelGeneralConfig) (st : CelState)
    (old_snapshot new_snapshot : Option ChannelSnapshot) (now : Timeval) :
    CelState × List AstEvent :=
  if cel_filter_channel_snapshot old_snapshot
      || cel_filter_channel_snapshot new_snapshot then (st, [])
  else
    let r1 := cel_channel_app_change cfg st old_snapshot new_snapshot now
    let r2 := cel_channel_state_change cfg r1.1 old_snapshot new_snapshot now
    let r3 := cel_channel_linkedid_change cfg r2.1 old_snapshot new_snapshot now
    (r3.1, r1.2 ++ r2.2 ++ r3.2)

/-- cel_bridge_enter_cb: drop internal channels, else report BRIDGE_ENTER from
the channel with the bridge's uniqueid as extra. -/
def cel_bridge_enter_cb (cfg : CelGeneralConfig) (st : CelState)
    (bridge_uniqueid : String) (chan : ChannelSnapshot) (now : Timeval) :
    CelState × List AstEvent :=
  if cel_filter_channel_snapshot (some chan) then (st, [])
  else
    let extra := Json.obj [("bridge_id", Json.str bridge_uniqueid)]
    let r := cel_report_event cfg st chan AST_CEL_BRIDGE_ENTER none (some extra) now
    (r.2.1, r.2.2)

/-- cel_bridge_leave_cb: drop internal channels, else report BRIDGE_EXIT from
the channel with the bridge's uniqueid as extra. -/
def cel_bridge_leave_cb (cfg : CelGeneralConfig) (st : CelState)
    (bridge_uniqueid : String) (chan : ChannelSnapshot) (now : Timeval) :
    CelState × List AstEvent :=
  if cel_filter_channel_snapshot (some chan) then (st, [])
  else
    let extra := Json.obj [("bridge_id", Json.str bridge_uniqueid)]
    let r := cel_report_event cfg st chan AST_CEL_BRIDGE_EXIT none (some extra) now
    (r.2.1, r.2.2)

/-- cel_dial_cb: drop when the caller is internal or has no uniqueid; report
FORWARD from the caller when the forward variable is non-empty; store the blob
in the dial-status store when the dialstatus variable is non-empty. -/
def cel_dial_cb (cfg : CelGeneralConfig) (st : CelState) (blob : DialBlob)
    (now : Timeval) : CelState × List AstEvent :=
  if cel_filter_channel_snapshot blob.caller then (st, [])
  else
    match get_caller_uniqueid blob with
    | none => (st, [])
    | some _ =>
      let r1 :=
        if blob.forward ≠ "" then
          match blob.caller with
          | none => (st, [])
          | some caller =>
            let extra := Json.obj [("forward", Json.str blob.forward)]
            let r := cel_report_event cfg st caller AST_CEL_FORWARD none (some extra) now
            (r.2.1, r.2.2)
        else (st, [])
      if blob.dialstatus = "" then (r1.1, r1.2)
      else
        ({ r1.1 with dialstatus_store := save_dialstatus r1.1.dialstatus_store blob },
         r1.2)

/-- cel_pickup_cb: with the picking channel and the picked target both present,
report PICKUP on the target with the picking channel's name as extra. The
handler applies no INTERNAL tech-property filter. -/
def cel_pickup_cb (cfg : CelGeneralConfig) (st : CelState)
    (channel target : Option ChannelSnapshot) (now : Timeval) :
    CelState × List AstEvent :=
  match channel, target with
  | some ch, some tgt =>
    let extra := Json.obj [("pickup_channel", Json.str ch.name)]
    let r := cel_report_event cfg st tgt AST_CEL_PICKUP none (some extra) now
    (r.2.1, r.2.2)
  | _, _ => (st, [])

/-- cel_local_cb: with both local channel halves present, report LOCAL_OPTIMIZE
on channel one with channel two's name as extra. The handler applies no
INTERNAL tech-property filter. -/
def cel_local_cb (cfg : CelGeneralConfig) (st : CelState)
    (localone localtwo : Option ChannelSnapshot) (now : Timeval) :
    CelState × List AstEvent :=
  match localone, localtwo with
  | some one, some two =>
    let extra := Json.obj [("local_two", Json.str two.name)]
    let r := cel_report_event cfg st one AST_CEL_LOCAL_OPTIMIZE none (some extra) now
    (r.2.1, r.2.2)
  | _, _ => (st, [])

/-- Iterate cel_linkedid_ref for one linkedid: one acquisition per live channel
carrying it (a failed acquisition leaves the tracker as it was). -/
def acquireN (lids : List (String × Nat)) (linkedid : String) : Nat → List (String × Nat)
  | 0 => lids
  | k + 1 =>
    match cel_linkedid_ref (acquireN lids linkedid k) linkedid with
    | some l => l
    | none => acquireN lids linkedid k

/-- Run check_retire_linkedid for each snapshot in turn, collecting the emitted
events in order. -/
def retireChannels (cfg : CelGeneralConfig) (now : Timeval) :
    CelState → List ChannelSnapshot → CelState × List AstEvent
  | st, [] => (st, [])
  | st, s :: rest =>
    let r1 := check_retire_linkedid cfg st s now
    let r2 := retireChannels cfg now r1.1 rest
    (r2.1, r1.2 ++ r2.2)

/-- Fixture time value for concrete runs. -/
def tv0 : Timeval := ⟨1700000000, 250000⟩

/-- Fixture configuration: CEL enabled, every event tracked, the dial
application tracked. -/
def cfgAll : CelGeneralConfig :=
  { enable := true, events := CEL_ALL_EVENTS, apps := ["dial"], date_format := "" }

/-- Fixture configuration: CEL enabled, only LINKEDID_END tracked (the
CHANNEL_START bit is absent from the mask). -/
def cfgNoStart : CelGeneralConfig :=
  { enable := true, events := 1 <<< 16, apps := [], date_format := "" }

/-- Fixture configuration: CEL disabled. -/
def cfgOff : CelGeneralConfig :=
  { enable := false, events := CEL_ALL_EVENTS, apps := [], date_format := "" }

/-- Fixture engine state: empty tracker, empty dial-status store. -/
def st0 : CelState := { linkedids := [], dialstatus_store := [] }

/-- Fixture channel snapshot. -/
def snapBase : ChannelSnapshot :=
  { uniqueid := "1000", linkedid := "L1", name := "SIP/alice-0001", appl := ""
    data := "", context := "default", exten := "s", amaflags := 3
    accountcode := "acct-A", peeraccount := "peer-B", userfield := ""
    caller_name := "Alice", caller_number := "100", caller_ani := ""
    caller_rdnis := "", caller_dnid := "", hangupcause := 16, hangupsource := ""
    state := 0, dead := false, tech_internal := false }

/-- Fixture snapshot: first channel of a linked pair. -/
def snapA : ChannelSnapshot := { snapBase with uniqueid := "1001" }

/-- Fixture snapshot: second channel of a linked pair. -/
def snapB : ChannelSnapshot := { snapBase with uniqueid := "1002" }

/-- Fixture snapshot: running the Dial application, line up. -/
def snapOldApp : ChannelSnapshot :=
  { snapBase with appl := "Dial", data := "PJSIP/bob", state := AST_STATE_UP }

/-- Fixture snapshot: same channel gone DEAD with the application cleared. -/
def snapNewDead : ChannelSnapshot :=
  { snapBase with state := AST_STATE_UP, dead := true }

/-- Fixture snapshot with the INTERNAL tech property. -/
def snapInternal : ChannelSnapshot :=
  { snapBase with uniqueid := "9999", name := "CBAnn/x", tech_internal := true }

/-- Fixture snapshot with an empty linkedid. -/
def snapNoLid : ChannelSnapshot := { snapBase with linkedid := "" }

/-- Fixture dial blob: caller 1000 got BUSY. -/
def dialBlobBusy : DialBlob :=
  { caller := some snapBase, dialstatus := "BUSY", forward := "" }

/-- Fixture dial blob: caller 1000 later got CONGESTION. -/
def dialBlobCongestion : DialBlob :=
  { caller := some snapBase, dialstatus := "CONGESTION", forward := "" }

/-- Fixture state whose dial-status store holds the BUSY blob for caller 1000. -/
def stBusy : CelState :=
  { linkedids := [], dialstatus_store := [("1000", dialBlobBusy)] }

theorem lidFind_lidUpdate_self (l : List (String × Nat)) (key : String) (v nv : Nat)
    (h : lidFind l key = some v) :
    lidFind (lidUpdate l key nv) key = some nv := by
  induction l with
  | nil => simp [lidFind] at h
  | cons p t ih =>
    by_cases hk : p.1 = key
    · simp [lidFind, lidUpdate, hk]
    · simp [lidFind, lidUpdate, hk] at h ⊢
      exact ih h

theorem lidFind_lidErase_self (l : List (String × Nat)) (key : String) :
    lidFind (lidErase l key) key = none := by
  induction l with
  | nil => rfl
  | cons p t ih =>
    by_cases hk : p.1 = key
    · simpa [lidErase, hk] using ih
    · simpa [lidErase, hk, lidFind] using ih

theorem dialstatusFind_dialstatusErase_self (store : List (String × DialBlob))
    (key : String) :
    dialstatusFind (dialstatusErase store key) key = none := by
  induction store with
  | nil => rfl
  | cons p t ih =>
    by_cases hk : p.1 = key
    · simpa [dialstatusErase, hk] using ih
    · simpa [dialstatusErase, hk, dialstatusFind] using ih

theorem list_get_append_len {α : Type} (l : List α) (a : α) (t : List α) :
    (l ++ a :: t).get? l.length = some a := by
  induction l with
  | nil => rfl
  | cons x xs ih => simpa using ih

theorem list_get_append_lt {α : Type} (l t : List α) (j : Nat) (h : j < l.length) :
    (l ++ t).get? j = l.get? j := by
  induction l generalizing j with
  | nil => simp at h
  | cons x xs ih =>
    cases j with
    | zero => rfl
    | succ j => simpa using ih j (by simpa using h)

theorem cel_report_event_state (cfg : CelGeneralConfig) (st : CelState)
    (s : ChannelSnapshot) (et : Nat) (udn : Option String) (ex : Option Json)
    (now : Timeval) (h : (et == AST_CEL_CHANNEL_START) = false) :
    (cel_report_event cfg st s et udn ex now).2.1 = st := by
  unfold cel_report_event
  split
  · rfl
  · split
    · rfl
    · next lids heq =>
      simp only [h, Bool.and_false, Bool.false_eq_true, if_false,
        Option.some.injEq] at heq
      subst heq
      split
      · rfl
      · split <;> rfl


theorem cel_report_event_events_shape (cfg : CelGeneralConfig) (st : CelState)
    (s : ChannelSnapshot) (et : Nat) (udn : Option String) (ex : Option Json)
    (now : Timeval) :
    (cel_report_event cfg st s et udn ex now).2.2 = [] ∨
    (cel_report_event cfg st s et udn ex now).2.2
      = [ast_cel_create_event s et udn ex now] := by
  unfold cel_report_event
  split
  · exact Or.inl rfl
  · split
    · exact Or.inl rfl
    · split
      · exact Or.inl rfl
      · split
        · exact Or.inl rfl
        · exact Or.inr rfl

theorem cel_report_event_emit (cfg : CelGeneralConfig) (st : CelState)
    (s : ChannelSnapshot) (et : Nat) (udn : Option String) (ex : Option Json)
    (now : Timeval) (hen : cfg.enable = true)
    (htr : ast_cel_track_event cfg et = true)
    (hns : (et == AST_CEL_CHANNEL_START) = false)
    (happ : (et == AST_CEL_APP_START || et == AST_CEL_APP_END) = false) :
    cel_report_event cfg st s et udn ex now
      = (0, st, [ast_cel_create_event s et udn ex now]) := by
  simp [cel_report_event, hen, htr, hns, happ]

theorem cel_report_event_emit_app (cfg : CelGeneralConfig) (st : CelState)
    (s : ChannelSnapshot) (et : Nat) (udn : Option String) (ex : Option Json)
    (now : Timeval) (hen : cfg.enable = true)
    (htr : ast_cel_track_event cfg et = true)
    (hns : (et == AST_CEL_CHANNEL_START) = false)
    (htrapp : cel_track_app cfg s.appl = true) :
    cel_report_event cfg st s et udn ex now
      = (0, st, [ast_cel_create_event s et udn ex now]) := by
  simp [cel_report_event, hen, htr, hns, htrapp]

theorem check_retire_events_shape (cfg : CelGeneralConfig) (st : CelState)
    (s : ChannelSnapshot) (now : Timeval) :
    (check_retire_linkedid cfg st s now).2 = [] ∨
    (check_retire_linkedid cfg st s now).2
      = [ast_cel_create_event s AST_CEL_LINKEDID_END none none now] := by
  unfold check_retire_linkedid
  split
  · exact Or.inl rfl
  · split
    · exact Or.inl rfl
    · split
      · exact Or.inl rfl
      · split
        · exact cel_report_event_events_shape ..
        · exact Or.inl rfl

/-- C6, counterexample: the round trip of ast_cel_create_event followed by
ast_cel_fill_record is not the identity on peer_account. For a snapshot with
accountcode "acct-A" and peeraccount "peer-B", the filled record's peer_account
is "acct-A" (ast_cel_fill_record reads the ACCTCODE element), not the
snapshot's peeraccount. -/
theorem claim_c6_counterexample :
    (ast_cel_fill_record (ast_cel_create_event snapBase AST_CEL_ANSWER none none tv0)
        AST_CEL_EVENT_RECORD_VERSION).map CelEventRecord.peer_account
      ≠ some snapBase.peeraccount := by
  decide

/-- C6, amended: building an event record and then filling a record from it is
the identity on every string field, on event_type, amaflags and event_time,
except that peer_account comes back equal to the snapshot's accountcode (not
its peeraccount), because the record-fill path reads the ACCTCODE information
element for both account fields. -/
theorem claim_c6_amended (s : ChannelSnapshot) (et : Nat) (udn : Option String)
    (ex : Option Json) (t : Timeval) :
    ast_cel_fill_record (ast_cel_create_event s et udn ex t) AST_CEL_EVENT_RECORD_VERSION
      = some
        { version := AST_CEL_EVENT_RECORD_VERSION
          event_type := et
          event_time := t
          event_name := ast_cel_get_type_name et
          user_defined_name := if et = AST_CEL_USER_DEFINED then udn.getD "" else ""
          caller_id_name := s.caller_name
          caller_id_num := s.caller_number
          caller_id_ani := s.caller_ani
          caller_id_rdnis := s.caller_rdnis
          caller_id_dnid := s.caller_dnid
          extension := s.exten
          context := s.context
          channel_name := s.name
          application_name := s.appl
          application_data := s.data
          account_code := s.accountcode
          peer_account := s.accountcode
          unique_id := s.uniqueid
          linked_id := s.linkedid
          amaflag := s.amaflags
          user_field := s.userfield
          peer := ""
          extra := ex } :=
  rfl

/-- C7, counterexample: registering a backend under an already-registered name
is not rejected: the second ast_cel_backend_register call returns success and
the registry then holds two entries under the same name. -/
theorem claim_c7_counterexample :
    (ast_cel_backend_register
        (ast_cel_backend_register [] "cel_custom" 1).2 "cel_custom" 2).1 = 0
    ∧ (ast_cel_backend_register
        (ast_cel_backend_register [] "cel_custom" 1).2 "cel_custom" 2).2.length = 2 := by
  decide

/-- C7, amended: registering with an empty name is rejected; registering with a
non-empty name always succeeds and appends an entry, even when the name is
already registered (no duplicate check is performed); unregistering an absent
name returns failure and leaves the registry unchanged; registering and then
unregistering a name leaves the registry empty. -/
theorem claim_c7_amended (backends : List CelBackend) (name : String) (cb : Nat) :
    (name = "" → ast_cel_backend_register backends name cb = (-1, backends))
    ∧ (name ≠ "" →
        ast_cel_backend_register backends name cb
          = (0, backends ++ [{ name := name, callback := cb }]))
    ∧ ((∀ b ∈ backends, b.name ≠ name) →
        ast_cel_backend_unregister backends name = (-1, backends))
    ∧ (name ≠ "" →
        ast_cel_backend_unregister (ast_cel_backend_register [] name cb).2 name
          = (0, [])) := by
  refine ⟨?_, ?_, ?_, ?_⟩
  · intro h
    simp [ast_cel_backend_register, h]
  · intro h
    simp [ast_cel_backend_register, h]
  · intro h
    have hr : backendsRemoveFirst backends name = none := by
      induction backends with
      | nil => rfl
      | cons b t ih =>
        have hb : b.name ≠ name := h b (by simp)
        have ih' := ih (fun x hx => h x (List.mem_cons_of_mem _ hx))
        simp [backendsRemoveFirst, hb, ih']
    simp [ast_cel_backend_unregister, hr]
  · intro h
    simp [ast_cel_backend_register, h, ast_cel_backend_unregister, backendsRemoveFirst]

/-- C7, witness for the amended statement at concrete inputs. -/
theorem claim_c7_witness :
    ast_cel_backend_register [] "" 7 = (-1, [])
    ∧ ast_cel_backend_register [] "cdr" 7 = (0, [] ++ [{ name := "cdr", callback := 7 }])
    ∧ ast_cel_backend_unregister [{ name := "cdr", callback := 7 }] "radius"
        = (-1, [{ name := "cdr", callback := 7 }])
    ∧ ast_cel_backend_unregister (ast_cel_backend_register [] "cdr" 7).2 "cdr" = (0, []) :=
  ⟨(claim_c7_amended [] "" 7).1 rfl,
   (claim_c7_amended [] "cdr" 7).2.1 (by decide),
   (claim_c7_amended [{ name := "cdr", callback := 7 }] "radius" 7).2.2.1 (by decide),
   (claim_c7_amended [] "cdr" 7).2.2.2 (by decide)⟩

/-- C8: event-name matching in the events handler is case-insensitive, contrary
to the claim and to the module's own configuration documentation. The name
"chan_start", which differs from the recognized "CHAN_START" only in letter
case, maps to event type 1 and is accepted by events_handler (setting bit 1),
while a literally unknown name still rejects the configuration. -/
theorem claim_c8_case_insensitive :
    ast_cel_str_to_event_type "chan_start" = 1
    ∧ events_handler "chan_start" 0 = some 2
    ∧ events_handler "NOT_AN_EVENT" 0 = none
    ∧ ast_cel_str_to_event_type "CHAN_START" = 1 := by
  refine ⟨?_, ?_, ?_, ?_⟩ <;> decide

/-- C9: the pre-apply validation of a pending configuration (whose general
section is present) fails exactly when the apps container is non-empty while
neither the APP_START bit nor the APP_END bit is set in the events mask. -/
theorem claim_c9 (cfg : CelGeneralConfig) :
    cel_pre_apply_config (some cfg) = -1 ↔
      cfg.apps ≠ [] ∧ cfg.events.testBit AST_CEL_APP_START = false
        ∧ cfg.events.testBit AST_CEL_APP_END = false := by
  unfold cel_pre_apply_config
  constructor
  · intro h
    by_cases h1 : cfg.apps.length = 0
    · simp [h1] at h
    · by_cases h2 : cfg.events.testBit 5
      · simp [h1, h2] at h
      · by_cases h3 : cfg.events.testBit 6
        · simp [h1, h2, h3] at h
        · exact ⟨by simpa [List.length_eq_zero] using h1,
            by simpa using h2, by simpa using h3⟩
  · rintro ⟨h1, h2, h3⟩
    have h1' : ¬ cfg.apps.length = 0 := by simpa [List.length_eq_zero] using h1
    simp [h1', h2, h3]

/-- C5: with CEL enabled and LINKEDID_END in the tracked-events mask, reporting
a CHANNEL_START candidate acquires the snapshot's linkedid in the tracker (a
fresh entry gets refcount 2, an existing one is incremented) even when the
CHANNEL_START bit itself is absent from the mask, in which case the event is
dropped (success, no event emitted); with CEL disabled the report function
returns immediately and no acquisition occurs. -/
theorem claim_c5 (cfg : CelGeneralConfig) (st : CelState) (snap : ChannelSnapshot)
    (now : Timeval) :
    (cfg.enable = true →
     ast_cel_track_event cfg AST_CEL_LINKEDID_END = true →
     ast_cel_track_event cfg AST_CEL_CHANNEL_START = false →
     snap.linkedid ≠ "" →
       (cel_report_event cfg st snap AST_CEL_CHANNEL_START none none now).1 = 0
       ∧ (cel_report_event cfg st snap AST_CEL_CHANNEL_START none none now).2.2 = []
       ∧ lidFind
           (cel_report_event cfg st snap AST_CEL_CHANNEL_START none none now).2.1.linkedids
           snap.linkedid
         = some ((lidFind st.linkedids snap.linkedid).getD 1 + 1))
    ∧ (cfg.enable = false →
       ∀ et udn ex, cel_report_event cfg st snap et udn ex now = (0, st, [])) := by
  constructor
  · intro hen htr hns hlid
    cases hf : lidFind st.linkedids snap.linkedid with
    | none =>
      simp [cel_report_event, hen, htr, hns, cel_linkedid_ref, hlid, hf, lidFind]
    | some rc =>
      simp [cel_report_event, hen, htr, hns, cel_linkedid_ref, hlid, hf,
        lidFind_lidUpdate_self st.linkedids snap.linkedid rc (rc + 1) hf]
  · intro hdis et udn ex
    simp [cel_report_event, hdis]

/-- C5, witness: with only LINKEDID_END tracked, reporting CHANNEL_START for
snapA against the empty tracker emits nothing but creates the linkedid entry
with refcount 2; with CEL disabled nothing happens at all. -/
theorem claim_c5_witness :
    ((cel_report_event cfgNoStart st0 snapA AST_CEL_CHANNEL_START none none tv0).1 = 0
     ∧ (cel_report_event cfgNoStart st0 snapA AST_CEL_CHANNEL_START none none tv0).2.2 = []
     ∧ lidFind
         (cel_report_event cfgNoStart st0 snapA AST_CEL_CHANNEL_START none none tv0).2.1.linkedids
         snapA.linkedid
       = some ((lidFind st0.linkedids snapA.linkedid).getD 1 + 1))
    ∧ cel_report_event cfgOff st0 snapA AST_CEL_HANGUP none none tv0 = (0, st0, []) :=
  ⟨(claim_c5 cfgNoStart st0 snapA tv0).1 rfl (by decide) (by decide) (by decide),
   (claim_c5 cfgOff st0 snapA tv0).2 rfl AST_CEL_HANGUP none none⟩

/-- C10: with CEL enabled and LINKEDID_END tracked, reporting a CHANNEL_START
candidate whose snapshot has an empty linkedid fails (-1) and emits nothing,
whatever the rest of the mask tracks, because cel_linkedid_ref rejects the
empty linkedid without mutating the tracker (the returned state is the input
state). -/
theorem claim_c10 (cfg : CelGeneralConfig) (st : CelState) (snap : ChannelSnapshot)
    (now : Timeval) (udn : Option String) (ex : Option Json)
    (hen : cfg.enable = true)
    (htr : ast_cel_track_event cfg AST_CEL_LINKEDID_END = true)
    (hempty : snap.linkedid = "") :
    cel_report_event cfg st snap AST_CEL_CHANNEL_START udn ex now = (-1, st, []) := by
  simp [cel_report_event, hen, htr, cel_linkedid_ref, hempty]

/-- C10, witness: with every event tracked (CHANNEL_START included), a
CHANNEL_START report for a snapshot with an empty linkedid fails without
emitting or changing state. -/
theorem claim_c10_witness :
    cel_report_event cfgAll st0 snapNoLid AST_CEL_CHANNEL_START none none tv0
      = (-1, st0, []) :=
  claim_c10 cfgAll st0 snapNoLid tv0 none none rfl (by decide) rfl

/-- C2: on a hangup transition (old snapshot not DEAD, new snapshot DEAD, CEL
enabled, HANGUP tracked) the state-change handler emits exactly one HANGUP
event whose extra holds hangupcause, hangupsource and the dialstatus of the
dial envelope stored under the new snapshot's uniqueid (the empty string when
none is stored, or when the stored dialstatus is empty); the lookup consumes
the stored entry. Separately, a later dial envelope saved for the same caller
replaces the earlier stored one. -/
theorem claim_c2 (cfg : CelGeneralConfig) (st : CelState) (o n : ChannelSnapshot)
    (now : Timeval) (hen : cfg.enable = true)
    (htr : ast_cel_track_event cfg AST_CEL_HANGUP = true)
    (hwas : o.dead = false) (his : n.dead = true) :
    ((cel_channel_state_change cfg st (some o) (some n) now).2
       = [ast_cel_create_event n AST_CEL_HANGUP none
           (some (Json.obj
             [("hangupcause", Json.int n.hangupcause),
              ("hangupsource", Json.str n.hangupsource),
              ("dialstatus", Json.str
                (match dialstatusFind st.dialstatus_store n.uniqueid with
                 | some b => if b.dialstatus = "" then "" else b.dialstatus
                 | none => ""))])) now]
     ∧ dialstatusFind
         (cel_channel_state_change cfg st (some o) (some n) now).1.dialstatus_store
         n.uniqueid = none)
    ∧ (∀ (store : List (String × DialBlob)) (b1 b2 : DialBlob) (uid : String),
        get_caller_uniqueid b1 = some uid → get_caller_uniqueid b2 = some uid →
        dialstatusFind (save_dialstatus (save_dialstatus store b1) b2) uid = some b2) := by
  refine ⟨?_, ?_⟩
  · cases hf : dialstatusFind st.dialstatus_store n.uniqueid with
    | none =>
      simp [cel_channel_state_change, hwas, his, get_dialstatus_blob, hf,
        cel_report_event, hen, htr]
    | some b =>
      simp [cel_channel_state_change, hwas, his, get_dialstatus_blob, hf,
        cel_report_event, hen, htr, dialstatusFind_dialstatusErase_self]
  · intro store b1 b2 uid h1 h2
    simp [save_dialstatus, h1, h2, dialstatusFind]

/-- C2, witness: with the BUSY envelope stored for caller 1000, the hangup of
channel 1000 emits HANGUP carrying that dialstatus and empties the store; and
saving CONGESTION after BUSY for the same caller leaves CONGESTION stored. -/
theorem claim_c2_witness :
    ((cel_channel_state_change cfgAll stBusy (some snapBase) (some snapNewDead) tv0).2
       = [ast_cel_create_event snapNewDead AST_CEL_HANGUP none
           (some (Json.obj
             [("hangupcause", Json.int snapNewDead.hangupcause),
              ("hangupsource", Json.str snapNewDead.hangupsource),
              ("dialstatus", Json.str
                (match dialstatusFind stBusy.dialstatus_store snapNewDead.uniqueid with
                 | some b => if b.dialstatus = "" then "" else b.dialstatus
                 | none => ""))])) tv0]
     ∧ dialstatusFind
         (cel_channel_state_change cfgAll stBusy (some snapBase) (some snapNewDead) tv0).1.dialstatus_store
         snapNewDead.uniqueid = none)
    ∧ dialstatusFind (save_dialstatus (save_dialstatus [] dialBlobBusy) dialBlobCongestion)
        "1000" = some dialBlobCongestion :=
  ⟨(claim_c2 cfgAll stBusy snapBase snapNewDead tv0 rfl (by decide) rfl rfl).1,
   (claim_c2 cfgAll stBusy snapBase snapNewDead tv0 rfl (by decide) rfl rfl).2
     [] dialBlobBusy dialBlobCongestion "1000" rfl rfl⟩

/-- C4, counterexample: the pickup correlator applies no INTERNAL filter: a
pickup whose target snapshot carries the INTERNAL tech flag still emits a CEL
event (one PICKUP event here, with CEL enabled and every event tracked),
contradicting the claim that no correlator emits for INTERNAL snapshots. -/
theorem claim_c4_counterexample :
    snapInternal.tech_internal = true
    ∧ (cel_pickup_cb cfgAll st0 (some snapBase) (some snapInternal) tv0).2.length = 1 := by
  refine ⟨rfl, by decide⟩

/-- C4, amended: the INTERNAL tech-flag filter is applied by the
snapshot-update, bridge-enter, bridge-leave and dial correlators, which emit
no event and leave the engine state (linkedid tracker included) unchanged for
INTERNAL snapshots; the pickup, local-optimize, parking and transfer
correlators do not apply the filter. -/
theorem claim_c4_amended (cfg : CelGeneralConfig) (st : CelState) (now : Timeval) :
    (∀ o n, (cel_filter_channel_snapshot o = true ∨ cel_filter_channel_snapshot n = true) →
        cel_snapshot_update_cb cfg st o n now = (st, []))
    ∧ (∀ bid ch, ch.tech_internal = true →
        cel_bridge_enter_cb cfg st bid ch now = (st, []))
    ∧ (∀ bid ch, ch.tech_internal = true →
        cel_bridge_leave_cb cfg st bid ch now = (st, []))
    ∧ (∀ blob, cel_filter_channel_snapshot blob.caller = true →
        cel_dial_cb cfg st blob now = (st, [])) := by
  refine ⟨?_, ?_, ?_, ?_⟩
  · intro o n h
    have hb : (cel_filter_channel_snapshot o || cel_filter_channel_snapshot n) = true := by
      rcases h with h | h <;> simp [h]
    simp [cel_snapshot_update_cb, hb]
  · intro bid ch h
    simp [cel_bridge_enter_cb, cel_filter_channel_snapshot, h]
  · intro bid ch h
    simp [cel_bridge_leave_cb, cel_filter_channel_snapshot, h]
  · intro blob h
    simp [cel_dial_cb, h]

/-- C4, witness for the amended statement: an INTERNAL snapshot is dropped
without state change by the snapshot-update, bridge enter and leave, and dial
correlators. -/
theorem claim_c4_witness :
    cel_snapshot_update_cb cfgAll st0 (some snapInternal) none tv0 = (st0, [])
    ∧ cel_bridge_enter_cb cfgAll st0 "B1" snapInternal tv0 = (st0, [])
    ∧ cel_bridge_leave_cb cfgAll st0 "B1" snapInternal tv0 = (st0, [])
    ∧ cel_dial_cb cfgAll st0
        { caller := some snapInternal, dialstatus := "BUSY", forward := "" } tv0
      = (st0, []) :=
  ⟨(claim_c4_amended cfgAll st0 tv0).1 (some snapInternal) none (Or.inl (by decide)),
   (claim_c4_amended cfgAll st0 tv0).2.1 "B1" snapInternal (by decide),
   (claim_c4_amended cfgAll st0 tv0).2.2.1 "B1" snapInternal (by decide),
   (claim_c4_amended cfgAll st0 tv0).2.2.2
     { caller := some snapInternal, dialstatus := "BUSY", forward := "" } (by decide)⟩

theorem acquireN_find (lids : List (String × Nat)) (lid : String)
    (hlid : lid ≠ "") (h0 : lidFind lids lid = none) :
    ∀ k, lidFind (acquireN lids lid (k + 1)) lid = some (k + 2) := by
  intro k
  induction k with
  | zero =>
    simp [acquireN, cel_linkedid_ref, hlid, h0, lidFind]
  | succ k ih =>
    have h2 := lidFind_lidUpdate_self (acquireN lids lid (k + 1)) lid (k + 2) (k + 2 + 1) ih
    have href : cel_linkedid_ref (acquireN lids lid (k + 1)) lid
        = some (lidUpdate (acquireN lids lid (k + 1)) lid (k + 2 + 1)) := by
      simp [cel_linkedid_ref, hlid, ih]
    have hstep : lidFind (acquireN lids lid (k + 1 + 1)) lid = some (k + 2 + 1) := by
      show lidFind
        (match cel_linkedid_ref (acquireN lids lid (k + 1)) lid with
         | some l => l
         | none => acquireN lids lid (k + 1)) lid = some (k + 2 + 1)
      rw [href]
      exact h2
    rw [hstep]

theorem retireChannels_no_emit (cfg : CelGeneralConfig) (now : Timeval) (lid : String)
    (htr : ast_cel_track_event cfg AST_CEL_LINKEDID_END = true) (hlid : lid ≠ "") :
    ∀ (ps : List ChannelSnapshot) (st : CelState) (rc : Nat),
      (∀ s ∈ ps, s.linkedid = lid) →
      lidFind st.linkedids lid = some rc →
      ps.length + 2 ≤ rc →
      (retireChannels cfg now st ps).2 = []
      ∧ lidFind (retireChannels cfg now st ps).1.linkedids lid = some (rc - ps.length) := by
  intro ps
  induction ps with
  | nil =>
    intro st rc _ hf _
    simpa [retireChannels] using hf
  | cons s rest ih =>
    intro st rc hall hf hlen
    have hs : s.linkedid = lid := hall s (by simp)
    have hrc3 : ¬ (rc + 1 = 3) := by
      simp only [List.length_cons] at hlen
      omega
    have hstep : check_retire_linkedid cfg st s now
        = ({ st with linkedids := lidUpdate st.linkedids lid (rc - 1) }, []) := by
      simp [check_retire_linkedid, hs, hlid, htr, hf, hrc3]
    have hfind' : lidFind (lidUpdate st.linkedids lid (rc - 1)) lid = some (rc - 1) :=
      lidFind_lidUpdate_self _ _ _ _ hf
    have hrest := ih { st with linkedids := lidUpdate st.linkedids lid (rc - 1) }
      (rc - 1) (fun x hx => hall x (List.mem_cons_of_mem _ hx)) hfind'
      (by simp only [List.length_cons] at hlen; omega)
    refine ⟨?_, ?_⟩
    · simp [retireChannels, hstep, hrest.1]
    · have h2 := hrest.2
      simp only [retireChannels, hstep] at h2 ⊢
      rw [h2]
      congr 1
      simp only [List.length_cons]
      omega

theorem retireChannels_last_emit (cfg : CelGeneralConfig) (now : Timeval) (lid : String)
    (hen : cfg.enable = true)
    (htr : ast_cel_track_event cfg AST_CEL_LINKEDID_END = true)
    (hlid : lid ≠ "") :
    ∀ (init : List ChannelSnapshot) (slast : ChannelSnapshot) (st : CelState),
      (∀ s ∈ init ++ [slast], s.linkedid = lid) →
      lidFind st.linkedids lid = some (init.length + 2) →
      (retireChannels cfg now st (init ++ [slast])).2
        = [ast_cel_create_event slast AST_CEL_LINKEDID_END none none now]
      ∧ lidFind (retireChannels cfg now st (init ++ [slast])).1.linkedids lid = none := by
  intro init
  induction init with
  | nil =>
    intro slast st hall hf
    have hs : slast.linkedid = lid := hall slast (by simp)
    simp only [List.length_nil, Nat.zero_add] at hf
    have hrep : cel_report_event cfg
        { st with linkedids := lidErase st.linkedids lid } slast
        AST_CEL_LINKEDID_END none none now
        = (0, { st with linkedids := lidErase st.linkedids lid },
           [ast_cel_create_event slast AST_CEL_LINKEDID_END none none now]) := by
      simp [cel_report_event, hen, htr]
    simp [retireChannels, check_retire_linkedid, hs, hlid, htr, hf, hrep,
      lidFind_lidErase_self]
  | cons s rest ih =>
    intro slast st hall hf
    have hs : s.linkedid = lid := hall s (by simp)
    simp only [List.length_cons] at hf
    have hrc3 : ¬ (rest.length + 1 + 2 + 1 = 3) := by omega
    have hval : rest.length + 1 + 2 - 1 = rest.length + 2 := by omega
    have hstep : check_retire_linkedid cfg st s now
        = ({ st with linkedids := lidUpdate st.linkedids lid (rest.length + 2) },
           []) := by
      simp [check_retire_linkedid, hs, hlid, htr, hf, hrc3, hval]
    have hfind' : lidFind (lidUpdate st.linkedids lid (rest.length + 2)) lid
        = some (rest.length + 2) :=
      lidFind_lidUpdate_self _ _ _ _ hf
    have hrest := ih slast
      { st with linkedids := lidUpdate st.linkedids lid (rest.length + 2) }
      (fun x hx => hall x (List.mem_cons_of_mem _ hx)) hfind'
    refine ⟨?_, ?_⟩
    · simp [retireChannels, hstep, hrest.1]
    · simpa [retireChannels, hstep] using hrest.2

/-- C1: starting from a tracker with no entry for the linkedid, one
cel_linkedid_ref acquisition per live channel followed by one
check_retire_linkedid per channel (with CEL enabled and LINKEDID_END tracked)
emits LINKEDID_END exactly once: the retirement check for the last channel
unlinks the tracker entry and emits the single LINKEDID_END event built from
that last channel's snapshot, while every earlier retirement check for the
same linkedid emits nothing. -/
theorem claim_c1 (cfg : CelGeneralConfig) (st : CelState) (now : Timeval)
    (lid : String) (init : List ChannelSnapshot) (slast : ChannelSnapshot)
    (hen : cfg.enable = true)
    (htr : ast_cel_track_event cfg AST_CEL_LINKEDID_END = true)
    (hlid : lid ≠ "")
    (hfresh : lidFind st.linkedids lid = none)
    (hall : ∀ s ∈ init ++ [slast], s.linkedid = lid) :
    (retireChannels cfg now
        { st with linkedids := acquireN st.linkedids lid (init ++ [slast]).length }
        (init ++ [slast])).2
      = [ast_cel_create_event slast AST_CEL_LINKEDID_END none none now]
    ∧ lidFind (retireChannels cfg now
        { st with linkedids := acquireN st.linkedids lid (init ++ [slast]).length }
        (init ++ [slast])).1.linkedids lid = none
    ∧ ∀ j, j < (init ++ [slast]).length →
        (retireChannels cfg now
          { st with linkedids := acquireN st.linkedids lid (init ++ [slast]).length }
          ((init ++ [slast]).take j)).2 = [] := by
  have hlen : (init ++ [slast]).length = init.length + 1 := by simp
  have hacq : lidFind (acquireN st.linkedids lid (init ++ [slast]).length) lid
      = some (init.length + 2) := by
    rw [hlen]
    exact acquireN_find st.linkedids lid hlid hfresh init.length
  have hmain := retireChannels_last_emit cfg now lid hen htr hlid init slast
    { st with linkedids := acquireN st.linkedids lid (init ++ [slast]).length } hall hacq
  refine ⟨hmain.1, hmain.2, ?_⟩
  intro j hj
  rw [hlen] at hj
  have htake_all : ∀ x ∈ (init ++ [slast]).take j, x.linkedid = lid :=
    fun x hx => hall x (List.take_subset _ _ hx)
  have hlen_take : ((init ++ [slast]).take j).length = j := by
    rw [List.length_take, hlen]
    omega
  have hno := retireChannels_no_emit cfg now lid htr hlid
    ((init ++ [slast]).take j)
    { st with linkedids := acquireN st.linkedids lid (init ++ [slast]).length }
    (init.length + 2) htake_all hacq (by rw [hlen_take]; omega)
  exact hno.1

/-- C1, witness: two channels share linkedid L1; after two acquisitions, the
first retirement check emits nothing and the second emits exactly one
LINKEDID_END built from the second channel's snapshot, leaving no tracker
entry. -/
theorem claim_c1_witness :
    (∀ s ∈ [snapA] ++ [snapB], s.linkedid = "L1")
    ∧ ((retireChannels cfgAll tv0
          { st0 with linkedids := acquireN st0.linkedids "L1" ([snapA] ++ [snapB]).length }
          ([snapA] ++ [snapB])).2
        = [ast_cel_create_event snapB AST_CEL_LINKEDID_END none none tv0]
      ∧ lidFind (retireChannels cfgAll tv0
          { st0 with linkedids := acquireN st0.linkedids "L1" ([snapA] ++ [snapB]).length }
          ([snapA] ++ [snapB])).1.linkedids "L1" = none
      ∧ ∀ j, j < ([snapA] ++ [snapB]).length →
          (retireChannels cfgAll tv0
            { st0 with linkedids := acquireN st0.linkedids "L1" ([snapA] ++ [snapB]).length }
            (([snapA] ++ [snapB]).take j)).2 = []) :=
  ⟨by decide,
   claim_c1 cfgAll st0 tv0 "L1" [snapA] snapB rfl (by decide) (by decide) rfl (by decide)⟩

theorem cel_channel_state_change_hangup (cfg : CelGeneralConfig) (stx : CelState)
    (o n : ChannelSnapshot) (now : Timeval)
    (hwas : o.dead = false) (his : n.dead = true)
    (hen : cfg.enable = true)
    (htr : ast_cel_track_event cfg AST_CEL_HANGUP = true) :
    ∃ ex st2, cel_channel_state_change cfg stx (some o) (some n) now
      = (st2, [ast_cel_create_event n AST_CEL_HANGUP none ex now]) := by
  refine ⟨some (Json.obj
      [("hangupcause", Json.int n.hangupcause),
       ("hangupsource", Json.str n.hangupsource),
       ("dialstatus", Json.str
         (match (get_dialstatus_blob stx.dialstatus_store n.uniqueid).1 with
          | some b => if b.dialstatus = "" then "" else b.dialstatus
          | none => ""))]),
    { stx with dialstatus_store := (get_dialstatus_blob stx.dialstatus_store n.uniqueid).2 },
    ?_⟩
  simp [cel_channel_state_change, hwas, his, cel_report_event, hen, htr]

theorem cel_channel_app_change_head (cfg : CelGeneralConfig) (st : CelState)
    (o n : ChannelSnapshot) (now : Timeval)
    (happne : o.appl ≠ n.appl) (hoappl : o.appl ≠ "")
    (hen : cfg.enable = true)
    (htr : ast_cel_track_event cfg AST_CEL_APP_END = true)
    (htrapp : cel_track_app cfg o.appl = true) :
    ∃ tail, (cel_channel_app_change cfg st (some o) (some n) now).2
      = ast_cel_create_event o AST_CEL_APP_END none none now :: tail := by
  have hAppEnd : cel_report_event cfg st o AST_CEL_APP_END none none now
      = (0, st, [ast_cel_create_event o AST_CEL_APP_END none none now]) :=
    cel_report_event_emit_app cfg st o AST_CEL_APP_END none none now hen htr rfl htrapp
  by_cases hnappl : n.appl = ""
  · exact ⟨[], by simp [cel_channel_app_change, happne, hoappl, hAppEnd, hnappl]⟩
  · exact ⟨(cel_report_event cfg st n AST_CEL_APP_START none none now).2.2,
      by simp [cel_channel_app_change, happne, hoappl, hAppEnd, hnappl]⟩

/-- C3: the snapshot-update handler applies its sub-handlers in the fixed array
order application-change, state-change, linkedid-change, concatenating their
events in that order; consequently an update that carries both an application
change (ending a tracked application) and a hangup transition emits the old
snapshot's APP_END strictly before the new snapshot's HANGUP, and an update
that removes the channel emits CHANNEL_END before any LINKEDID_END produced by
the retirement check that the state-change handler runs afterwards. -/
theorem claim_c3 (cfg : CelGeneralConfig) (st : CelState) (now : Timeval) :
    (∀ o n, (cel_filter_channel_snapshot o || cel_filter_channel_snapshot n) = false →
        cel_snapshot_update_cb cfg st o n now
          = ((cel_channel_linkedid_change cfg
                (cel_channel_state_change cfg
                  (cel_channel_app_change cfg st o n now).1 o n now).1 o n now).1,
             (cel_channel_app_change cfg st o n now).2
               ++ (cel_channel_state_change cfg
                    (cel_channel_app_change cfg st o n now).1 o n now).2
               ++ (cel_channel_linkedid_change cfg
                    (cel_channel_state_change cfg
                      (cel_channel_app_change cfg st o n now).1 o n now).1 o n now).2))
    ∧ (∀ o n : ChannelSnapshot, o.tech_internal = false → n.tech_internal = false →
        o.appl ≠ n.appl → o.appl ≠ "" →
        o.dead = false → n.dead = true →
        cfg.enable = true →
        ast_cel_track_event cfg AST_CEL_APP_END = true →
        ast_cel_track_event cfg AST_CEL_HANGUP = true →
        cel_track_app cfg o.appl = true →
        ∃ i j ev1 ev2, i < j
          ∧ (cel_snapshot_update_cb cfg st (some o) (some n) now).2.get? i = some ev1
          ∧ (cel_snapshot_update_cb cfg st (some o) (some n) now).2.get? j = some ev2
          ∧ ev1.event_type = AST_CEL_APP_END ∧ ev1.uniqueid = o.uniqueid
          ∧ ev2.event_type = AST_CEL_HANGUP ∧ ev2.uniqueid = n.uniqueid)
    ∧ (∀ o : ChannelSnapshot, o.tech_internal = false →
        cfg.enable = true →
        ast_cel_track_event cfg AST_CEL_CHANNEL_END = true →
        ∃ i ev, (cel_snapshot_update_cb cfg st (some o) none now).2.get? i = some ev
          ∧ ev.event_type = AST_CEL_CHANNEL_END ∧ ev.uniqueid = o.uniqueid
          ∧ ∀ j ev2,
              (cel_snapshot_update_cb cfg st (some o) none now).2.get? j = some ev2 →
              ev2.event_type = AST_CEL_LINKEDID_END → i < j) := by
  refine ⟨?_, ?_, ?_⟩
  · intro o n h
    simp [cel_snapshot_update_cb, h]
  · intro o n hoint hnint happne hoappl hwas his hen htrAE htrH htrapp
    have hfil : (cel_filter_channel_snapshot (some o)
        || cel_filter_channel_snapshot (some n)) = false := by
      simp [cel_filter_channel_snapshot, hoint, hnint]
    obtain ⟨tail, hA⟩ :=
      cel_channel_app_change_head cfg st o n now happne hoappl hen htrAE htrapp
    obtain ⟨ex, st2, hS⟩ := cel_channel_state_change_hangup cfg
      (cel_channel_app_change cfg st (some o) (some n) now).1 o n now hwas his hen htrH
    have hevents : (cel_snapshot_update_cb cfg st (some o) (some n) now).2
        = ast_cel_create_event o AST_CEL_APP_END none none now
          :: (tail ++ ast_cel_create_event n AST_CEL_HANGUP none ex now
              :: (cel_channel_linkedid_change cfg st2 (some o) (some n) now).2) := by
      simp [cel_snapshot_update_cb, hfil, hA, hS]
    refine ⟨0, tail.length + 1,
      ast_cel_create_event o AST_CEL_APP_END none none now,
      ast_cel_create_event n AST_CEL_HANGUP none ex now,
      Nat.succ_pos _, ?_, ?_, rfl, rfl, rfl, rfl⟩
    · rw [hevents]
      rfl
    · rw [hevents]
      exact list_get_append_len _ _ _
  · intro o hoint hen htrCE
    have hfil : (cel_filter_channel_snapshot (some o)
        || cel_filter_channel_snapshot none) = false := by
      simp [cel_filter_channel_snapshot, hoint]
    have hAshape : (cel_channel_app_change cfg st (some o) none now).2 = []
        ∨ (cel_channel_app_change cfg st (some o) none now).2
          = [ast_cel_create_event o AST_CEL_APP_END none none now] := by
      by_cases ha : o.appl = ""
      · left
        simp [cel_channel_app_change, ha]
      · rcases cel_report_event_events_shape cfg st o AST_CEL_APP_END none none now
          with h | h
        · left
          simp [cel_channel_app_change, ha, h]
        · right
          simp [cel_channel_app_change, ha, h]
    have hrep := cel_report_event_emit cfg
      (cel_channel_app_change cfg st (some o) none now).1 o AST_CEL_CHANNEL_END
      none none now hen htrCE rfl rfl
    have hS : cel_channel_state_change cfg
        (cel_channel_app_change cfg st (some o) none now).1 (some o) none now
        = ((check_retire_linkedid cfg
              (cel_channel_app_change cfg st (some o) none now).1 o now).1,
           ast_cel_create_event o AST_CEL_CHANNEL_END none none now
             :: (check_retire_linkedid cfg
                  (cel_channel_app_change cfg st (some o) none now).1 o now).2) := by
      simp [cel_channel_state_change, hrep]
    have hevents : (cel_snapshot_update_cb cfg st (some o) none now).2
        = (cel_channel_app_change cfg st (some o) none now).2
          ++ ast_cel_create_event o AST_CEL_CHANNEL_END none none now
            :: (check_retire_linkedid cfg
                 (cel_channel_app_change cfg st (some o) none now).1 o now).2 := by
      simp [cel_snapshot_update_cb, hfil, hS, cel_channel_linkedid_change]
    refine ⟨(cel_channel_app_change cfg st (some o) none now).2.length,
      ast_cel_create_event o AST_CEL_CHANNEL_END none none now, ?_, rfl, rfl, ?_⟩
    · rw [hevents]
      exact list_get_append_len _ _ _
    · intro j ev2 hget htype
      rcases Nat.lt_trichotomy j
        ((cel_channel_app_change cfg st (some o) none now).2.length) with hlt | heq | hgt
      · exfalso
        rw [hevents, list_get_append_lt _ _ j hlt] at hget
        rcases hAshape with h | h
        · rw [h] at hget
          simp at hget
        · rw [h] at hlt hget
          have hj0 : j = 0 := by simpa using hlt
          subst hj0
          have hev : ast_cel_create_event o AST_CEL_APP_END none none now = ev2 := by
            simpa [List.get?] using hget
          rw [← hev] at htype
          simp [ast_cel_create_event] at htype
      · exfalso
        rw [hevents, heq, list_get_append_len] at hget
        have hev : ast_cel_create_event o AST_CEL_CHANNEL_END none none now = ev2 := by
          simpa using hget
        rw [← hev] at htype
        simp [ast_cel_create_event] at htype
      · exact hgt

/-- C3, witness: with every event tracked and the Dial application tracked, one
update of channel 1000 from "running Dial, alive" to "no application, DEAD"
emits APP_END strictly before HANGUP, and an update removing the channel emits
CHANNEL_END before any LINKEDID_END. -/
theorem claim_c3_witness :
    (cel_snapshot_update_cb cfgAll st0 (some snapOldApp) (some snapNewDead) tv0
      = ((cel_channel_linkedid_change cfgAll
            (cel_channel_state_change cfgAll
              (cel_channel_app_change cfgAll st0 (some snapOldApp) (some snapNewDead) tv0).1
              (some snapOldApp) (some snapNewDead) tv0).1
            (some snapOldApp) (some snapNewDead) tv0).1,
         (cel_channel_app_change cfgAll st0 (some snapOldApp) (some snapNewDead) tv0).2
           ++ (cel_channel_state_change cfgAll
                (cel_channel_app_change cfgAll st0 (some snapOldApp) (some snapNewDead) tv0).1
                (some snapOldApp) (some snapNewDead) tv0).2
           ++ (cel_channel_linkedid_change cfgAll
                (cel_channel_state_change cfgAll
                  (cel_channel_app_change cfgAll st0 (some snapOldApp) (some snapNewDead) tv0).1
                  (some snapOldApp) (some snapNewDead) tv0).1
                (some snapOldApp) (some snapNewDead) tv0).2))
    ∧ (∃ i j ev1 ev2, i < j
        ∧ (cel_snapshot_update_cb cfgAll st0 (some snapOldApp) (some snapNewDead) tv0).2.get? i
            = some ev1
        ∧ (cel_snapshot_update_cb cfgAll st0 (some snapOldApp) (some snapNewDead) tv0).2.get? j
            = some ev2
        ∧ ev1.event_type = AST_CEL_APP_END ∧ ev1.uniqueid = snapOldApp.uniqueid
        ∧ ev2.event_type = AST_CEL_HANGUP ∧ ev2.uniqueid = snapNewDead.uniqueid)
    ∧ (∃ i ev,
        (cel_snapshot_update_cb cfgAll st0 (some snapOldApp) none tv0).2.get? i = some ev
        ∧ ev.event_type = AST_CEL_CHANNEL_END ∧ ev.uniqueid = snapOldApp.uniqueid
        ∧ ∀ j ev2,
            (cel_snapshot_update_cb cfgAll st0 (some snapOldApp) none tv0).2.get? j = some ev2 →
            ev2.event_type = AST_CEL_LINKEDID_END → i < j) :=
  ⟨(claim_c3 cfgAll st0 tv0).1 (some snapOldApp) (some snapNewDead) (by decide),
   (claim_c3 cfgAll st0 tv0).2.1 snapOldApp snapNewDead rfl rfl (by decide) (by decide)
     rfl rfl rfl (by decide) (by decide) (by decide),
   (claim_c3 cfgAll st0 tv0).2.2 snapOldApp rfl rfl (by decide)⟩
